import Mathlib

/-!
Verification of the travel-plan SMT solver (`src/server/solver/smt-solver.py`).

The Python file builds a Z3 problem from a loosely-typed trip description,
runs `solver.check()`, and decodes the outcome into one of four result
dictionaries.  We embed the formalization logic shallowly:

* `TripData` is the typed shape of the JSON input actually read by
  `_formalize_problem` (`None` models an absent key; a present falsy value
  such as `0` or `[]` is `some 0` / `some []`, since Python's `data.get(k)`
  truthiness and `data.get(k, default)` key-presence behave differently).
* Z3 expressions used by the program are captured by the small languages
  `Term` / `CExpr`; variables carry their declared type and the bound
  assertions issued by `add_variable`.
* The Z3 engine itself is external; it is modelled by a `SolverOracle`
  (check outcome, model, unsat core) constrained by `OracleValid`:
  a `sat` answer comes with a genuinely satisfying situation, an `unsat`
  answer only when no assignment satisfies all asserted constraints, and
  the reported core only mentions tracked (`assert_and_track`) names,
  which is what `Solver.unsat_core()` returns.
* Wall-clock time is external as well and enters `solve_travel_plan` as the
  already-measured millisecond count.
* Real-number decoding in `_extract_solution` goes through
  `float(value.as_decimal(10))` in the source; we keep the exact rational,
  which is faithful for everything proved here (the claims under study are
  about which keys appear, not about rounding).
-/

/-! ## Data model of the JSON input -/

/-- One entry of `data['hotels']`; `price_per_night` may be missing
(the source then uses `hotel.get('price_per_night', 100)`). -/
structure Hotel where
  price_per_night : Option ℚ
  deriving Repr, DecidableEq

/-- One entry of `data['attractions']`; the source reads
`a.get('category', '')` (and `name` only appears in test data). -/
structure Attraction where
  name : Option String
  category : Option String
  deriving Repr, DecidableEq

/-- The fields of the input dictionary read by `_formalize_problem`.
`none` = key absent; `some v` = key present with value `v`
(possibly falsy: `some 0`, `some ""`, `some []`). -/
structure TripData where
  start_date : Option String := none
  end_date : Option String := none
  budget : Option ℚ := none
  duration : Option ℚ := none
  preferences : Option (List String) := none
  hotels : Option (List Hotel) := none
  attractions : Option (List Attraction) := none
  deriving Repr, DecidableEq

/-! ## Truthiness helpers mirroring Python gates -/

/-- `data.get(key)` truthiness for a string field: present and non-empty. -/
def truthyStr : Option String → Bool
  | some s => !(s == "")
  | none => false

/-- `data.get('budget')` truthiness: the budget value when present and
non-zero, `none` otherwise. -/
def budgetVal (d : TripData) : Option ℚ :=
  match d.budget with
  | some b => if b == 0 then none else some b
  | none => none

/-- `data.get('hotels')` as a list; an absent key and an empty list both
give `[]`, matching the truthiness gate `if data.get('hotels'):`. -/
def hotelsL (d : TripData) : List Hotel := d.hotels.getD []

/-- `data.get('attractions')` as a list (same truthiness convention). -/
def attractionsL (d : TripData) : List Attraction := d.attractions.getD []

/-- `data.get('preferences', [])`. -/
def prefsL (d : TripData) : List String := d.preferences.getD []

/-- Truthiness of `data.get('duration')` (gate of the activity-scheduling
block): present and non-zero. -/
def durTruthy (d : TripData) : Bool :=
  match d.duration with
  | some x => !(x == 0)
  | none => false

/-- `data.get('duration', 3)`: the default applies only when the key is
absent — an explicit `0` stays `0`. -/
def durationD (d : TripData) : ℚ := d.duration.getD 3

/-! ## Z3 expressions actually built by the program -/

/-- Arithmetic terms over the declared real/int variables. -/
inductive Term where
  | var (n : String)
  | const (q : ℚ)
  | add (a b : Term)
  | mul (a b : Term)
  deriving Repr, DecidableEq

/-- The constraint expressions `_formalize_problem` asserts. `isTrue n`
models `self.vars[n] == True` for a boolean variable. -/
inductive CExpr where
  | lt (a b : Term)
  | le (a b : Term)
  | ge (a b : Term)
  | eq (a b : Term)
  | and (a b : CExpr)
  | isTrue (n : String)
  deriving Repr, DecidableEq

/-- Z3 sort of a declared variable (`add_variable`'s `var_type`). -/
inductive VarType where
  | int
  | bool
  | real
  deriving Repr, DecidableEq

/-- A declared variable together with the bound assertions
`add_variable` pushed for its `domain` argument. -/
structure VarDecl where
  name : String
  type : VarType
  lo : Option ℚ
  hi : Option ℚ
  deriving Repr, DecidableEq

/-- One entry of `self.constraints` (`add_constraint` ledger). -/
structure Constraint where
  name : String
  expr : CExpr
  is_hard : Bool
  deriving Repr, DecidableEq

/-- The mutable solver-session state: `self.vars` (insertion-ordered
dict, no name is ever declared twice by the formalizer) and
`self.constraints`.  `self.constraint_names` is written but never read in
the source, so it is not modelled. -/
structure FormState where
  vars : List VarDecl
  constraints : List Constraint
  deriving Repr, DecidableEq

/-- `TravelPlanSolver.__init__`: fresh solver, empty registries. -/
def initState : FormState := ⟨[], []⟩

/-- `add_variable`: records the declaration (bounds are asserted to the
solver; we keep them on the declaration and enforce them in `varOK`). -/
def add_variable (st : FormState) (name : String) (t : VarType)
    (lo hi : Option ℚ) : FormState :=
  { st with vars := st.vars ++ [⟨name, t, lo, hi⟩] }

/-- `add_constraint`: hard constraints via `solver.add`, soft ones via
`assert_and_track`; either way the record is appended to
`self.constraints` — there is no duplicate-name check. -/
def add_constraint (st : FormState) (e : CExpr) (name : String)
    (is_hard : Bool) : FormState :=
  { st with constraints := st.constraints ++ [⟨name, e, is_hard⟩] }

/-! ## `_formalize_problem`, block by block (source order) -/

/-- Python `pat in s` for a non-empty pattern. -/
def strContainsSub (s pat : String) : Bool :=
  (s.splitOn pat).length > 1

/-- Membership test of the cultural-attraction list comprehension:
`'museum' in a.get('category','').lower() or 'cultural' in ...`. -/
def isCultural (a : Attraction) : Bool :=
  strContainsSub (a.category.getD "").toLower "museum" ||
  strContainsSub (a.category.getD "").toLower "cultural"

/-- `[hotel.get('price_per_night', 100) for hotel in data['hotels']]`. -/
def hotelPrices (hs : List Hotel) : List ℚ :=
  hs.map (fun h => h.price_per_night.getD 100)

/-- `min(hotel_costs) if hotel_costs else 50`. -/
def minHotelCost (hs : List Hotel) : ℚ :=
  match hotelPrices hs with
  | [] => 50
  | p :: ps => ps.foldl min p

/-- `max(hotel_costs) if hotel_costs else 300`. -/
def maxHotelCost (hs : List Hotel) : ℚ :=
  match hotelPrices hs with
  | [] => 300
  | p :: ps => ps.foldl max p

/-- `min(len(data['attractions']), data.get('duration', 3) * 2)`. -/
def numActivities (d : TripData) : ℚ :=
  min ((attractionsL d).length : ℚ) (durationD d * 2)

/-- The `cost_components` list: the source tests
`'accommodation_cost' in self.vars` (resp. `activity_cost`), and
inside the budget block those variables exist exactly when the
corresponding gate fired. -/
def costComponents (d : TripData) : List Term :=
  (if !(hotelsL d).isEmpty then [Term.var "accommodation_cost"] else []) ++
  (if !(attractionsL d).isEmpty then [Term.var "activity_cost"] else [])

/-- Date block (`# Zeitvariablen`). -/
def dateBlock (data : TripData) (st : FormState) : FormState :=
  if truthyStr data.start_date && truthyStr data.end_date then
    let st := add_variable st "start_day" .int (some 0) (some 365)
    let st := add_variable st "end_day" .int (some 0) (some 365)
    add_constraint st (.lt (.var "start_day") (.var "end_day"))
      "valid_date_range" true
  else st

/-- Budget block (`# Budget-Constraints`). -/
def budgetBlock (data : TripData) (st : FormState) : FormState :=
  match budgetVal data with
  | none => st
  | some budget_limit =>
    let st := add_variable st "total_cost" .real (some 0) none
    let st :=
      if !(hotelsL data).isEmpty then
        let st := add_variable st "accommodation_cost" .real (some 0) none
        add_constraint st
          (.and
            (.ge (.var "accommodation_cost")
              (.const (minHotelCost (hotelsL data) * durationD data)))
            (.le (.var "accommodation_cost")
              (.const (maxHotelCost (hotelsL data) * durationD data))))
          "accommodation_cost_range" true
      else st
    let st :=
      if !(attractionsL data).isEmpty then
        let st := add_variable st "activity_cost" .real (some 0) none
        add_constraint st
          (.le (.var "activity_cost") (.const (25 * numActivities data)))
          "activity_cost_estimate" true
      else st
    if !(costComponents data).isEmpty then
      let st := add_variable st "calculated_total" .real none none
      let st := add_constraint st
        (.eq (.var "calculated_total")
          ((costComponents data).foldl Term.add (.const 0)))
        "total_cost_calculation" true
      add_constraint st
        (.le (.var "calculated_total") (.const budget_limit))
        "budget_limit" true
    else st

/-- `f'preference_{i}_{pref}'`. -/
def prefVarName (i : Nat) (p : String) : String :=
  "preference_" ++ toString i ++ "_" ++ p

/-- Body of the preference loop for one `(i, pref)` pair. -/
def prefStep (data : TripData) (st : FormState) (ip : Nat × String) :
    FormState :=
  let pv := prefVarName ip.1 ip.2
  let st := add_variable st pv .bool none none
  if ip.2 == "culture" && !(attractionsL data).isEmpty then
    if !((attractionsL data).filter isCultural).isEmpty then
      add_constraint st (.isTrue pv) "culture_preference_satisfied" true
    else st
  else if ip.2 == "budget" && (budgetVal data).isSome then
    add_constraint st (.isTrue pv) "budget_preference_considered" true
  else st

/-- Preference block (`# Präferenz-Constraints`); `if preferences:` is
equivalent to iterating the possibly-empty list directly. -/
def prefBlock (data : TripData) (st : FormState) : FormState :=
  (prefsL data).enum.foldl (prefStep data) st

/-- Hotel-availability block. -/
def hotelBlock (data : TripData) (st : FormState) : FormState :=
  if !(hotelsL data).isEmpty then
    let st := add_variable st "hotel_selected" .bool none none
    add_constraint st (.isTrue "hotel_selected") "hotel_availability" true
  else st

/-- Activity-scheduling block
(`if data.get('attractions') and data.get('duration'):`). -/
def schedBlock (data : TripData) (st : FormState) : FormState :=
  if !(attractionsL data).isEmpty && durTruthy data then
    let st := add_variable st "activities_per_day" .real
      (some ((1 : ℚ)/2)) (some 4)
    let st := add_variable st "total_activities_planned" .real (some 1) none
    let st := add_constraint st
      (.le (.var "total_activities_planned")
        (.mul (.var "activities_per_day") (.const (durationD data))))
      "activity_scheduling_upper" true
    let st := add_constraint st
      (.le (.var "total_activities_planned")
        (.const ((attractionsL data).length : ℚ)))
      "activity_availability" true
    add_constraint st
      (.ge (.var "total_activities_planned")
        (.const (durationD data * ((1 : ℚ)/2))))
      "minimum_activities" true
  else st

/-- `_formalize_problem`, the five blocks in source order. -/
def formalizeProblem (data : TripData) (st : FormState) : FormState :=
  schedBlock data (hotelBlock data (prefBlock data
    (budgetBlock data (dateBlock data st))))

/-- Formalization as performed by one `solve_travel_plan` call on a
freshly constructed `TravelPlanSolver`. -/
def formalized (data : TripData) : FormState :=
  formalizeProblem data initState

/-! ## Semantics of the asserted formulas -/

/-- A model value as delivered by Z3: numeric or boolean. -/
inductive Val where
  | num (q : ℚ)
  | bool (b : Bool)
  deriving Repr, DecidableEq

/-- Numeric valuation of a term (numeric and boolean variables of the
program inhabit disjoint name sets, so an assignment is split into a
numeric part `A` and a boolean part `B`). -/
def evalTerm (A : String → ℚ) : Term → ℚ
  | .var n => A n
  | .const q => q
  | .add a b => evalTerm A a + evalTerm A b
  | .mul a b => evalTerm A a * evalTerm A b

/-- Truth of an asserted expression under an assignment. -/
def holdsB (A : String → ℚ) (B : String → Bool) : CExpr → Bool
  | .lt a b => decide (evalTerm A a < evalTerm A b)
  | .le a b => decide (evalTerm A a ≤ evalTerm A b)
  | .ge a b => decide (evalTerm A b ≤ evalTerm A a)
  | .eq a b => decide (evalTerm A a = evalTerm A b)
  | .and a b => holdsB A B a && holdsB A B b
  | .isTrue n => B n

/-- The bound assertions `add_variable` pushed, plus integrality for
`Int` variables. -/
def varOK (A : String → ℚ) (v : VarDecl) : Bool :=
  (match v.lo with
   | some m => decide (m ≤ A v.name)
   | none => true) &&
  (match v.hi with
   | some m => decide (A v.name ≤ m)
   | none => true) &&
  (match v.type with
   | .int => (A v.name).den == 1
   | _ => true)

/-- Satisfiability of the asserted problem: some assignment meets every
variable-bound assertion and every recorded constraint. -/
def SatState (st : FormState) : Prop :=
  ∃ A B, (∀ v ∈ st.vars, varOK A v = true) ∧
    (∀ c ∈ st.constraints, holdsB A B c.expr = true)

/-- Names in the ledger, in insertion order. -/
def consNames (st : FormState) : List String :=
  st.constraints.map Constraint.name

/-- Declared variable names, in insertion order. -/
def varNames (st : FormState) : List String :=
  st.vars.map VarDecl.name

/-- Names asserted via `assert_and_track` (the only names
`Solver.unsat_core()` can ever report). -/
def trackedNames (st : FormState) : List String :=
  (st.constraints.filter (fun c => !c.is_hard)).map Constraint.name

/-! ## The external Z3 engine -/

/-- The three-way answer of `solver.check()`. -/
inductive Outcome where
  | sat
  | unsat
  | unknown
  deriving Repr, DecidableEq

/-- One interaction with the external solver: its check answer, the model
(`model[var]` may be `None` for a variable the solver deemed irrelevant)
and the unsat core. -/
structure SolverOracle where
  outcome : Outcome
  model : String → Option Val
  core : List String

/-- What a real Z3 session guarantees for the asserted problem:
a `sat` answer means the problem is satisfiable, an `unsat` answer means
it is not, and `unsat_core()` only ever returns tracked names. -/
structure OracleValid (st : FormState) (o : SolverOracle) : Prop where
  sat_sound : o.outcome = .sat → SatState st
  unsat_sound : o.outcome = .unsat → ¬ SatState st
  core_tracked : ∀ n ∈ o.core, n ∈ trackedNames st

/-! ## Result decoding and the orchestrator -/

/-- Per-kind decoding: `as_long` / `float(as_decimal(10))` / `is_true`.
A sort/value mismatch models the exception path of the `try` body. -/
def decodeVal : VarType → Val → Option Val
  | .int, .num q => some (.num q)
  | .real, .num q => some (.num q)
  | .bool, .bool b => some (.bool b)
  | _, _ => none

/-- `_extract_solution`: iterate the declared variables in insertion
order; a variable with no model value (`model[var] is None`) is skipped
(no key is written), a decode failure is caught and stores `None`. -/
def extractSolution (vs : List VarDecl) (model : String → Option Val) :
    List (String × Option Val) :=
  match vs with
  | [] => []
  | v :: rest =>
    match model v.name with
    | none => extractSolution rest model
    | some value =>
      match decodeVal v.type value with
      | some dv => (v.name, some dv) :: extractSolution rest model
      | none => (v.name, none) :: extractSolution rest model

/-- The four result dictionaries `solve_travel_plan` can return. -/
inductive SolveResult where
  | satisfiable (solution : List (String × Option Val))
      (execution_time : Nat) (constraints_count : Nat)
  | unsatisfiable (unsat_core : List String)
      (execution_time : Nat) (constraints_count : Nat)
  | timeout (execution_time : Nat)
  | error (msg : String) (execution_time : Nat)
  deriving Repr, DecidableEq

/-- `solve_travel_plan` on a freshly constructed `TravelPlanSolver`:
formalize, run the external check, dispatch on the three-way outcome.
On the typed input `TripData` the formalization is total, so the
`except Exception` branch producing the `error` variant is unreachable;
`t` is the externally measured elapsed time in whole milliseconds. -/
def solve_travel_plan (data : TripData) (o : SolverOracle) (t : Nat) :
    SolveResult :=
  let st := formalized data
  match o.outcome with
  | .sat => .satisfiable (extractSolution st.vars o.model) t
      st.constraints.length
  | .unsat => .unsatisfiable o.core t st.constraints.length
  | .unknown => .timeout t

/-- The `status` field of the emitted JSON document. -/
def statusOf : SolveResult → String
  | .satisfiable _ _ _ => "satisfiable"
  | .unsatisfiable _ _ _ => "unsatisfiable"
  | .timeout _ => "timeout"
  | .error _ _ => "error"

/-- The `execution_time` field (present on every variant). -/
def executionTimeOf : SolveResult → Nat
  | .satisfiable _ t _ => t
  | .unsatisfiable _ t _ => t
  | .timeout t => t
  | .error _ t => t

/-- The `constraints_count` field (absent on timeout/error). -/
def constraintsCountOf : SolveResult → Option Nat
  | .satisfiable _ _ k => some k
  | .unsatisfiable _ _ k => some k
  | .timeout _ => none
  | .error _ _ => none

/-- The `unsat_core` field (present only on the unsatisfiable variant). -/
def unsatCoreOf : SolveResult → Option (List String)
  | .unsatisfiable c _ _ => some c
  | _ => none

/-- The `solution` field (present only on the satisfiable variant). -/
def solutionOf : SolveResult → Option (List (String × Option Val))
  | .satisfiable s _ _ => some s
  | _ => none

/-! ## Blockwise view of the formalization

Each state-passing block above only appends to the two registries; the
following lists name exactly what it appends, which the bridge lemmas
below prove.  All downstream reasoning uses this decomposition. -/

/-- Variables appended by the date block. -/
def dateVarsL (d : TripData) : List VarDecl :=
  if truthyStr d.start_date && truthyStr d.end_date then
    [⟨"start_day", .int, some 0, some 365⟩,
     ⟨"end_day", .int, some 0, some 365⟩]
  else []

/-- Constraints appended by the date block. -/
def dateConsL (d : TripData) : List Constraint :=
  if truthyStr d.start_date && truthyStr d.end_date then
    [⟨"valid_date_range", .lt (.var "start_day") (.var "end_day"), true⟩]
  else []

/-- The `accommodation_cost_range` record. -/
def accRangeCon (d : TripData) : Constraint :=
  ⟨"accommodation_cost_range",
    .and
      (.ge (.var "accommodation_cost")
        (.const (minHotelCost (hotelsL d) * durationD d)))
      (.le (.var "accommodation_cost")
        (.const (maxHotelCost (hotelsL d) * durationD d))),
    true⟩

/-- The `total_cost_calculation` record. -/
def totalCalcCon (d : TripData) : Constraint :=
  ⟨"total_cost_calculation",
    .eq (.var "calculated_total")
      ((costComponents d).foldl Term.add (.const 0)),
    true⟩

/-- The `budget_limit` record. -/
def budgetLimitCon (b : ℚ) : Constraint :=
  ⟨"budget_limit", .le (.var "calculated_total") (.const b), true⟩

/-- Variables appended by the budget block. -/
def budgetVarsL (d : TripData) : List VarDecl :=
  match budgetVal d with
  | none => []
  | some _ =>
    [⟨"total_cost", .real, some 0, none⟩] ++
    (if !(hotelsL d).isEmpty then
      [⟨"accommodation_cost", .real, some 0, none⟩] else []) ++
    (if !(attractionsL d).isEmpty then
      [⟨"activity_cost", .real, some 0, none⟩] else []) ++
    (if !(costComponents d).isEmpty then
      [⟨"calculated_total", .real, none, none⟩] else [])

/-- Constraints appended by the budget block. -/
def budgetConsL (d : TripData) : List Constraint :=
  match budgetVal d with
  | none => []
  | some b =>
    (if !(hotelsL d).isEmpty then [accRangeCon d] else []) ++
    (if !(attractionsL d).isEmpty then
      [⟨"activity_cost_estimate",
        .le (.var "activity_cost") (.const (25 * numActivities d)), true⟩]
     else []) ++
    (if !(costComponents d).isEmpty then
      [totalCalcCon d, budgetLimitCon b]
     else [])

/-- Constraints appended for one `(i, pref)` pair of the loop. -/
def prefConOf (d : TripData) (ip : Nat × String) : List Constraint :=
  if ip.2 == "culture" && !(attractionsL d).isEmpty then
    if !((attractionsL d).filter isCultural).isEmpty then
      [⟨"culture_preference_satisfied",
        .isTrue (prefVarName ip.1 ip.2), true⟩]
    else []
  else if ip.2 == "budget" && (budgetVal d).isSome then
    [⟨"budget_preference_considered",
      .isTrue (prefVarName ip.1 ip.2), true⟩]
  else []

/-- Variables appended by the preference loop. -/
def prefVarsL (d : TripData) : List VarDecl :=
  (prefsL d).enum.map (fun ip => ⟨prefVarName ip.1 ip.2, .bool, none, none⟩)

/-- Constraints appended by the preference loop. -/
def prefConsL (d : TripData) : List Constraint :=
  ((prefsL d).enum.map (prefConOf d)).flatten

/-- Variables appended by the hotel-availability block. -/
def hotelVarsL (d : TripData) : List VarDecl :=
  if !(hotelsL d).isEmpty then [⟨"hotel_selected", .bool, none, none⟩]
  else []

/-- Constraints appended by the hotel-availability block. -/
def hotelConsL (d : TripData) : List Constraint :=
  if !(hotelsL d).isEmpty then
    [⟨"hotel_availability", .isTrue "hotel_selected", true⟩]
  else []

/-- Variables appended by the activity-scheduling block. -/
def schedVarsL (d : TripData) : List VarDecl :=
  if !(attractionsL d).isEmpty && durTruthy d then
    [⟨"activities_per_day", .real, some ((1 : ℚ)/2), some 4⟩,
     ⟨"total_activities_planned", .real, some 1, none⟩]
  else []

/-- Constraints appended by the activity-scheduling block. -/
def schedConsL (d : TripData) : List Constraint :=
  if !(attractionsL d).isEmpty && durTruthy d then
    [⟨"activity_scheduling_upper",
      .le (.var "total_activities_planned")
        (.mul (.var "activities_per_day") (.const (durationD d))), true⟩,
     ⟨"activity_availability",
      .le (.var "total_activities_planned")
        (.const ((attractionsL d).length : ℚ)), true⟩,
     ⟨"minimum_activities",
      .ge (.var "total_activities_planned")
        (.const (durationD d * ((1 : ℚ)/2))), true⟩]
  else []

/-- All declared variables, in declaration order. -/
def allVarsL (d : TripData) : List VarDecl :=
  dateVarsL d ++ budgetVarsL d ++ prefVarsL d ++ hotelVarsL d ++ schedVarsL d

/-- All recorded constraints, in recording order. -/
def allConsL (d : TripData) : List Constraint :=
  dateConsL d ++ budgetConsL d ++ prefConsL d ++ hotelConsL d ++ schedConsL d

/-! ## Concrete inputs and oracle sessions used in the scenarios -/

/-- The Zurich scenario:
`{budget:200, duration:5, hotels:[{price_per_night:300}]}`. -/
def zurichData : TripData :=
  { budget := some 200, duration := some 5,
    hotels := some [⟨some 300⟩] }

/-- A Z3 session answering `unsat` with an empty core. -/
def zurichOracle : SolverOracle := ⟨.unsat, fun _ => none, []⟩

/-- The empty input `{}`. -/
def emptyData : TripData := {}

/-- A Z3 session answering `sat`; with nothing asserted the model
mentions no variables at all. -/
def emptyOracle : SolverOracle := ⟨.sat, fun _ => none, []⟩

/-- An input declaring one boolean preference variable that occurs in no
constraint: Z3 may omit it from the model. -/
def luxData : TripData := { preferences := some ["luxury"] }

/-- A `sat` session whose model assigns no value to the irrelevant
preference variable. -/
def luxOracle : SolverOracle := ⟨.sat, fun _ => none, []⟩

/-- Duplicate preference tags: both loop iterations record a constraint
named `budget_preference_considered`. -/
def dupData : TripData :=
  { budget := some 100, preferences := some ["budget", "budget"] }

/-- A `sat` session for `dupData` (set both flags true, any
non-negative total cost). -/
def dupOracle : SolverOracle :=
  ⟨.sat,
   fun n => if n == "total_cost" then some (.num 0) else some (.bool true),
   []⟩

/-- A ledger that already contains the name
`budget_preference_considered`. -/
def c3State : FormState :=
  ⟨[], [⟨"budget_preference_considered", .isTrue "preference_0_budget", true⟩]⟩

/-- Explicit `duration: 0` alongside budget and hotels. -/
def dur0Data : TripData :=
  { budget := some 1000, duration := some 0, hotels := some [⟨some 100⟩] }

/-- The same input with the `duration` key absent. -/
def noDurData : TripData :=
  { budget := some 1000, hotels := some [⟨some 100⟩] }

/-- Budget present but falsy (`0`), with hotels available. -/
def zeroBudgetData : TripData :=
  { budget := some 0, hotels := some [⟨some 50⟩] }

/-! ## Bridge lemmas: each block only appends its listed items -/

theorem dateBlock_spec (d : TripData) (st : FormState) :
    dateBlock d st =
      ⟨st.vars ++ dateVarsL d, st.constraints ++ dateConsL d⟩ := by
  unfold dateBlock dateVarsL dateConsL add_variable add_constraint
  split <;> simp

theorem budgetBlock_spec (d : TripData) (st : FormState) :
    budgetBlock d st =
      ⟨st.vars ++ budgetVarsL d, st.constraints ++ budgetConsL d⟩ := by
  unfold budgetBlock budgetVarsL budgetConsL add_variable add_constraint
    accRangeCon totalCalcCon budgetLimitCon
  cases hb : budgetVal d with
  | none => simp
  | some b =>
    by_cases h1 : (hotelsL d).isEmpty <;>
      by_cases h2 : (attractionsL d).isEmpty <;>
        by_cases h3 : (costComponents d).isEmpty <;>
          simp [h1, h2, h3]

theorem prefStep_spec (d : TripData) (st : FormState) (ip : Nat × String) :
    prefStep d st ip =
      ⟨st.vars ++ [⟨prefVarName ip.1 ip.2, .bool, none, none⟩],
       st.constraints ++ prefConOf d ip⟩ := by
  unfold prefStep prefConOf add_variable add_constraint
  split
  · split <;> simp
  · split <;> simp

theorem prefFold_spec (d : TripData) (l : List (Nat × String)) :
    ∀ st : FormState,
      l.foldl (prefStep d) st =
        ⟨st.vars ++
          l.map (fun ip => ⟨prefVarName ip.1 ip.2, .bool, none, none⟩),
         st.constraints ++ (l.map (prefConOf d)).flatten⟩ := by
  induction l with
  | nil => intro st; simp
  | cons ip rest ih =>
    intro st
    rw [List.foldl_cons, prefStep_spec, ih]
    simp

theorem prefBlock_spec (d : TripData) (st : FormState) :
    prefBlock d st =
      ⟨st.vars ++ prefVarsL d, st.constraints ++ prefConsL d⟩ := by
  unfold prefBlock prefVarsL prefConsL
  exact prefFold_spec d _ st

theorem hotelBlock_spec (d : TripData) (st : FormState) :
    hotelBlock d st =
      ⟨st.vars ++ hotelVarsL d, st.constraints ++ hotelConsL d⟩ := by
  unfold hotelBlock hotelVarsL hotelConsL add_variable add_constraint
  split <;> simp

theorem schedBlock_spec (d : TripData) (st : FormState) :
    schedBlock d st =
      ⟨st.vars ++ schedVarsL d, st.constraints ++ schedConsL d⟩ := by
  unfold schedBlock schedVarsL schedConsL add_variable add_constraint
  split <;> simp

theorem formalized_spec (d : TripData) :
    formalized d = ⟨allVarsL d, allConsL d⟩ := by
  unfold formalized formalizeProblem allVarsL allConsL
  rw [dateBlock_spec, budgetBlock_spec, prefBlock_spec, hotelBlock_spec,
    schedBlock_spec]
  simp [initState]

/-! ## Structural facts about the recorded constraints -/

theorem dateConsL_hard (d : TripData) :
    ∀ c ∈ dateConsL d, c.is_hard = true := by
  unfold dateConsL; split <;> simp

theorem budgetConsL_hard (d : TripData) :
    ∀ c ∈ budgetConsL d, c.is_hard = true := by
  unfold budgetConsL accRangeCon totalCalcCon budgetLimitCon
  split
  · simp
  · intro c hc
    simp [List.mem_append] at hc
    rcases hc with h | h | h
    · simp [h.2]
    · simp [h.2]
    · rcases h.2 with h' | h' <;> simp [h']

theorem prefConOf_hard (d : TripData) (ip : Nat × String) :
    ∀ c ∈ prefConOf d ip, c.is_hard = true := by
  unfold prefConOf
  split
  · split <;> simp
  · split <;> simp

theorem prefConsL_hard (d : TripData) :
    ∀ c ∈ prefConsL d, c.is_hard = true := by
  unfold prefConsL
  intro c hc
  rw [List.mem_flatten] at hc
  obtain ⟨l, hl, hcl⟩ := hc
  rw [List.mem_map] at hl
  obtain ⟨ip, _, rfl⟩ := hl
  exact prefConOf_hard d ip c hcl

theorem hotelConsL_hard (d : TripData) :
    ∀ c ∈ hotelConsL d, c.is_hard = true := by
  unfold hotelConsL; split <;> simp

theorem schedConsL_hard (d : TripData) :
    ∀ c ∈ schedConsL d, c.is_hard = true := by
  unfold schedConsL; split <;> simp

/-- Every call site of `add_constraint` in `_formalize_problem` uses the
default `is_hard=True`. -/
theorem allConsL_hard (d : TripData) :
    ∀ c ∈ allConsL d, c.is_hard = true := by
  intro c hc
  unfold allConsL at hc
  simp only [List.mem_append] at hc
  rcases hc with (((h | h) | h) | h) | h
  · exact dateConsL_hard d c h
  · exact budgetConsL_hard d c h
  · exact prefConsL_hard d c h
  · exact hotelConsL_hard d c h
  · exact schedConsL_hard d c h

/-- No formalized problem contains a tracked (`assert_and_track`)
constraint, so `Solver.unsat_core()` has nothing to report. -/
theorem trackedNames_empty (d : TripData) :
    trackedNames (formalized d) = [] := by
  unfold trackedNames
  rw [formalized_spec]
  have : (allConsL d).filter (fun c => !c.is_hard) = [] := by
    rw [List.filter_eq_nil_iff]
    intro c hc
    simp [allConsL_hard d c hc]
  simp only [this, List.map_nil]

/-- A valid oracle can only return the empty core. -/
theorem core_empty (d : TripData) (o : SolverOracle)
    (ho : OracleValid (formalized d) o) : o.core = [] := by
  have h := ho.core_tracked
  rw [trackedNames_empty] at h
  exact List.eq_nil_iff_forall_not_mem.mpr (fun n hn => by
    simpa using h n hn)

/-! ## Which names each block can record -/

theorem dateConsL_name (d : TripData) :
    ∀ c ∈ dateConsL d, c.name = "valid_date_range" := by
  unfold dateConsL; split <;> simp

theorem prefConOf_name (d : TripData) (ip : Nat × String) :
    ∀ c ∈ prefConOf d ip,
      c.name = "culture_preference_satisfied" ∨
      c.name = "budget_preference_considered" := by
  unfold prefConOf
  split
  · split <;> simp
  · split <;> simp

theorem prefConsL_name (d : TripData) :
    ∀ c ∈ prefConsL d,
      c.name = "culture_preference_satisfied" ∨
      c.name = "budget_preference_considered" := by
  unfold prefConsL
  intro c hc
  rw [List.mem_flatten] at hc
  obtain ⟨l, hl, hcl⟩ := hc
  rw [List.mem_map] at hl
  obtain ⟨ip, _, rfl⟩ := hl
  exact prefConOf_name d ip c hcl

theorem hotelConsL_name (d : TripData) :
    ∀ c ∈ hotelConsL d, c.name = "hotel_availability" := by
  unfold hotelConsL; split <;> simp

theorem schedConsL_name (d : TripData) :
    ∀ c ∈ schedConsL d,
      c.name = "activity_scheduling_upper" ∨
      c.name = "activity_availability" ∨
      c.name = "minimum_activities" := by
  unfold schedConsL; split <;> simp

/-- A recorded constraint named `budget_limit` can only come from the
budget block. -/
theorem budget_limit_only_budget (d : TripData) (c : Constraint)
    (hc : c ∈ allConsL d) (hn : c.name = "budget_limit") :
    c ∈ budgetConsL d := by
  unfold allConsL at hc
  simp only [List.mem_append] at hc
  rcases hc with (((h | h) | h) | h) | h
  · rw [dateConsL_name d c h] at hn; exact absurd hn (by decide)
  · exact h
  · rcases prefConsL_name d c h with h' | h' <;>
      (rw [h'] at hn; exact absurd hn (by decide))
  · rw [hotelConsL_name d c h] at hn; exact absurd hn (by decide)
  · rcases schedConsL_name d c h with h' | h' | h' <;>
      (rw [h'] at hn; exact absurd hn (by decide))

/-! ## Membership helpers for the budget block -/

theorem mem_allCons_of_budget (d : TripData) (c : Constraint)
    (h : c ∈ budgetConsL d) : c ∈ allConsL d := by
  unfold allConsL
  simp only [List.mem_append]
  exact Or.inl (Or.inl (Or.inl (Or.inr h)))

theorem mem_allVars_of_budget (d : TripData) (v : VarDecl)
    (h : v ∈ budgetVarsL d) : v ∈ allVarsL d := by
  unfold allVarsL
  simp only [List.mem_append]
  exact Or.inl (Or.inl (Or.inl (Or.inr h)))

theorem accRange_mem (d : TripData) (b : ℚ)
    (hb : budgetVal d = some b) (hh : (hotelsL d).isEmpty = false) :
    accRangeCon d ∈ budgetConsL d := by
  unfold budgetConsL
  rw [hb]
  simp [hh]

theorem totalCalc_mem (d : TripData) (b : ℚ)
    (hb : budgetVal d = some b) (hh : (hotelsL d).isEmpty = false) :
    totalCalcCon d ∈ budgetConsL d := by
  unfold budgetConsL
  rw [hb]
  have hcc : (costComponents d).isEmpty = false := by
    unfold costComponents
    simp [hh]
  simp [hcc]

theorem budgetLimit_mem (d : TripData) (b : ℚ)
    (hb : budgetVal d = some b) (hh : (hotelsL d).isEmpty = false) :
    budgetLimitCon b ∈ budgetConsL d := by
  unfold budgetConsL
  rw [hb]
  have hcc : (costComponents d).isEmpty = false := by
    unfold costComponents
    simp [hh]
  simp [hcc]

theorem activityVar_mem (d : TripData) (b : ℚ)
    (hb : budgetVal d = some b) (ha : (attractionsL d).isEmpty = false) :
    (⟨"activity_cost", .real, some 0, none⟩ : VarDecl) ∈ budgetVarsL d := by
  unfold budgetVarsL
  rw [hb]
  simp [ha]

theorem accVar_mem (d : TripData) (b : ℚ)
    (hb : budgetVal d = some b) (hh : (hotelsL d).isEmpty = false) :
    (⟨"accommodation_cost", .real, some 0, none⟩ : VarDecl) ∈
      budgetVarsL d := by
  unfold budgetVarsL
  rw [hb]
  simp [hh]

/-! ## Semantic unsatisfiability of an underfunded trip -/

/-- With a truthy budget below `minHotelCost * duration` and a non-empty
hotel list, no assignment satisfies the asserted constraints: the
accommodation lower bound, the total-cost equation and the budget limit
are jointly contradictory. -/
theorem budget_hotels_unsat (d : TripData) (b : ℚ)
    (hb : budgetVal d = some b)
    (hh : (hotelsL d).isEmpty = false)
    (hlt : b < minHotelCost (hotelsL d) * durationD d) :
    ¬ SatState (formalized d) := by
  rintro ⟨A, B, hv, hc⟩
  rw [formalized_spec] at hv hc
  have hRange := hc (accRangeCon d)
    (mem_allCons_of_budget d _ (accRange_mem d b hb hh))
  have hCalc := hc (totalCalcCon d)
    (mem_allCons_of_budget d _ (totalCalc_mem d b hb hh))
  have hLim := hc (budgetLimitCon b)
    (mem_allCons_of_budget d _ (budgetLimit_mem d b hb hh))
  simp only [accRangeCon, totalCalcCon, budgetLimitCon, holdsB, evalTerm,
    Bool.and_eq_true, decide_eq_true_eq] at hRange hCalc hLim
  cases ha : (attractionsL d).isEmpty with
  | true =>
    have hcc : costComponents d = [Term.var "accommodation_cost"] := by
      unfold costComponents
      simp [hh, ha, List.isEmpty_iff.mp ha]
    rw [hcc] at hCalc
    simp only [List.foldl_cons, List.foldl_nil, evalTerm] at hCalc
    linarith [hRange.1, hLim, hlt]
  | false =>
    have hcc : costComponents d =
        [Term.var "accommodation_cost", Term.var "activity_cost"] := by
      unfold costComponents
      simp [hh, ha]
    rw [hcc] at hCalc
    simp only [List.foldl_cons, List.foldl_nil, evalTerm] at hCalc
    have hact := hv _ (mem_allVars_of_budget d _ (activityVar_mem d b hb ha))
    simp only [varOK, Bool.and_eq_true, decide_eq_true_eq] at hact
    linarith [hRange.1, hLim, hlt, hact.1.1]

/-! ## Keys produced by the result decoder -/

/-- The keys of `_extract_solution` are exactly the declared variables to
which the model assigns a value, in declaration order; a variable whose
model value is `None` contributes no key at all. -/
theorem extract_keys (model : String → Option Val) :
    ∀ vs : List VarDecl,
      (extractSolution vs model).map Prod.fst =
        (vs.filter (fun v => (model v.name).isSome)).map VarDecl.name := by
  intro vs
  induction vs with
  | nil => rfl
  | cons v rest ih =>
    unfold extractSolution
    cases hm : model v.name with
    | none => simp [List.filter_cons, hm, ih]
    | some value =>
      cases hd : decodeVal v.type value <;>
        simp [List.filter_cons, hm, hd, ih]

/-! ## Facts about the concrete scenario sessions -/

theorem zurichUnsat : ¬ SatState (formalized zurichData) :=
  budget_hotels_unsat zurichData 200 (by decide) (by decide)
    (by norm_num [minHotelCost, hotelPrices, hotelsL, zurichData, durationD])

theorem zurichOracleValid : OracleValid (formalized zurichData) zurichOracle :=
  ⟨fun h => absurd h (by decide), fun _ => zurichUnsat,
   fun n hn => absurd hn (List.not_mem_nil n)⟩

theorem luxSat : SatState (formalized luxData) :=
  ⟨fun _ => 0, fun _ => true, by decide, by decide⟩

theorem luxOracleValid : OracleValid (formalized luxData) luxOracle :=
  ⟨fun _ => luxSat, fun h => absurd h (by decide),
   fun n hn => absurd hn (List.not_mem_nil n)⟩

theorem dupSat : SatState (formalized dupData) :=
  ⟨fun _ => 0, fun _ => true, by decide, by decide⟩

theorem dupOracleValid : OracleValid (formalized dupData) dupOracle :=
  ⟨fun _ => dupSat, fun h => absurd h (by decide),
   fun n hn => absurd hn (List.not_mem_nil n)⟩

theorem emptySat : SatState (formalized emptyData) :=
  ⟨fun _ => 0, fun _ => true, by decide, by decide⟩

theorem emptyOracleValid : OracleValid (formalized emptyData) emptyOracle :=
  ⟨fun _ => emptySat, fun h => absurd h (by decide),
   fun n hn => absurd hn (List.not_mem_nil n)⟩

/-! ## Claim theorems -/

/-- C1, counterexample to the claim as stated: in the Zurich scenario
`{budget:200, duration:5, hotels:[{price_per_night:300}]}` the result is
the unsatisfiable variant, but its `unsat_core` is the empty list — it
does not contain `budget_limit` (nor anything else), because every
constraint is asserted hard and a Z3 core can only name tracked
constraints (there are none). -/
theorem C1_counterexample :
    OracleValid (formalized zurichData) zurichOracle ∧
    statusOf (solve_travel_plan zurichData zurichOracle 7) =
      "unsatisfiable" ∧
    unsatCoreOf (solve_travel_plan zurichData zurichOracle 7) = some [] ∧
    trackedNames (formalized zurichData) = [] :=
  ⟨zurichOracleValid, by decide, by decide, trackedNames_empty zurichData⟩

/-- C1 (amended): for every trip description with a truthy budget below
`minHotelCost * duration` (duration defaulting to 3) and a non-empty
hotel list, every valid, decisive solver session makes
`solve_travel_plan` return the unsatisfiable variant — with an empty
`unsat_core`, since no constraint is ever tracked; `budget_limit` is
present among the recorded constraint names, just never in the core. -/
theorem C1_budget_unsat_empty_core (d : TripData) (o : SolverOracle)
    (t : Nat) (b : ℚ)
    (hb : budgetVal d = some b)
    (hh : (hotelsL d).isEmpty = false)
    (hlt : b < minHotelCost (hotelsL d) * durationD d)
    (ho : OracleValid (formalized d) o)
    (hdec : o.outcome ≠ .unknown) :
    solve_travel_plan d o t =
      .unsatisfiable [] t ((formalized d).constraints.length) ∧
    "budget_limit" ∈ consNames (formalized d) := by
  have hunsat := budget_hotels_unsat d b hb hh hlt
  have hout : o.outcome = .unsat := by
    cases hoc : o.outcome with
    | sat => exact absurd (ho.sat_sound hoc) hunsat
    | unsat => rfl
    | unknown => exact absurd hoc hdec
  have hcore := core_empty d o ho
  constructor
  · simp only [solve_travel_plan, hout, hcore]
  · have hmem := mem_allCons_of_budget d _ (budgetLimit_mem d b hb hh)
    unfold consNames
    rw [formalized_spec]
    exact List.mem_map_of_mem Constraint.name hmem

/-- Witness for C1's amended theorem at the Zurich scenario. -/
theorem C1_budget_unsat_empty_core_witness :
    solve_travel_plan zurichData zurichOracle 7 =
      .unsatisfiable [] 7 ((formalized zurichData).constraints.length) ∧
    "budget_limit" ∈ consNames (formalized zurichData) :=
  C1_budget_unsat_empty_core zurichData zurichOracle 7 200 (by decide)
    (by decide)
    (by norm_num [minHotelCost, hotelPrices, hotelsL, zurichData, durationD])
    zurichOracleValid (by decide)

/-- C2, counterexample to the claim as stated: `{preferences:["luxury"]}`
declares the boolean `preference_0_luxury` but asserts nothing about it;
a valid `sat` session whose model omits the variable makes
`_extract_solution` drop the key entirely, so the satisfiable result's
solution is the empty mapping — the declared name is not a key mapped to
null. -/
theorem C2_counterexample :
    OracleValid (formalized luxData) luxOracle ∧
    "preference_0_luxury" ∈ varNames (formalized luxData) ∧
    solve_travel_plan luxData luxOracle 1 = .satisfiable [] 1 0 :=
  ⟨luxOracleValid, by decide, by decide⟩

/-- C2 (amended): the keys of the decoded solution are exactly the
declared variables to which the model assigns a value, in declaration
order; a variable the model omits is dropped from the mapping (only a
per-variable decode failure yields an explicit null value for a key that
is kept). -/
theorem C2_solution_keys (d : TripData) (m : String → Option Val) :
    (extractSolution (formalized d).vars m).map Prod.fst =
      ((formalized d).vars.filter
        (fun v => (m v.name).isSome)).map VarDecl.name :=
  extract_keys m (formalized d).vars

/-- C3, counterexample to the claim as stated: the input
`{budget:100, preferences:["budget","budget"]}` makes formalization
record the constraint name `budget_preference_considered` twice;
`add_constraint` raises no `DuplicateConstraintName`, nothing is caught,
and the solve returns the satisfiable variant rather than the Error
variant. -/
theorem C3_counterexample :
    consNames (formalized dupData) =
      ["budget_preference_considered", "budget_preference_considered"] ∧
    OracleValid (formalized dupData) dupOracle ∧
    statusOf (solve_travel_plan dupData dupOracle 2) = "satisfiable" :=
  ⟨by decide, dupOracleValid, by decide⟩

/-- C3 (amended): recording a constraint under an already-used name does
not fail — `add_constraint` unconditionally appends the new record after
the earlier one, and a solve whose formalization produces duplicate
constraint names returns a normal result, never an error. -/
theorem C3_duplicate_append (st : FormState) (e : CExpr) (n : String)
    (h : Bool) ( _hdup : n ∈ consNames st) :
    add_constraint st e n h =
      ⟨st.vars, st.constraints ++ [⟨n, e, h⟩]⟩ := rfl

/-- Witness for C3's amended theorem on a ledger already holding the
name. -/
theorem C3_duplicate_append_witness :
    add_constraint c3State (.isTrue "preference_1_budget")
        "budget_preference_considered" true =
      ⟨c3State.vars, c3State.constraints ++
        [⟨"budget_preference_considered", .isTrue "preference_1_budget",
          true⟩]⟩ :=
  C3_duplicate_append c3State (.isTrue "preference_1_budget")
    "budget_preference_considered" true (by decide)

/-- C4, counterexample to the claim as stated: for
`{budget:100, preferences:["budget","budget"]}` the ledger holds two
constraints that share one name, so the satisfiable result reports
`constraints_count = 2` while the number of distinct recorded names
is 1. -/
theorem C4_counterexample :
    OracleValid (formalized dupData) dupOracle ∧
    constraintsCountOf (solve_travel_plan dupData dupOracle 2) = some 2 ∧
    ((consNames (formalized dupData)).dedup).length = 1 :=
  ⟨dupOracleValid, by decide, by decide⟩

/-- C4 (amended): for every input and every decisive solver session, the
`constraints_count` field of the satisfiable or unsatisfiable result
equals the total number of constraints recorded during formalization,
counted with multiplicity (duplicate names counted each time). -/
theorem C4_count_total (d : TripData) (o : SolverOracle) (t : Nat)
    (hdec : o.outcome ≠ .unknown) :
    constraintsCountOf (solve_travel_plan d o t) =
      some ((formalized d).constraints.length) := by
  cases hoc : o.outcome with
  | sat => simp [solve_travel_plan, constraintsCountOf, hoc]
  | unsat => simp [solve_travel_plan, constraintsCountOf, hoc]
  | unknown => exact absurd hoc hdec

/-- Witness for C4's amended theorem at the duplicate-tag input. -/
theorem C4_count_total_witness :
    constraintsCountOf (solve_travel_plan dupData dupOracle 2) =
      some ((formalized dupData).constraints.length) :=
  C4_count_total dupData dupOracle 2 (by decide)

/-- C5 (confirmed): with a truthy budget and a non-empty hotel list,
formalization declares `accommodation_cost` as a Real with lower bound 0
and records the hard constraint `accommodation_cost_range` stating
`minHotelCost * duration ≤ accommodation_cost ≤ maxHotelCost * duration`,
where `minHotelCost`/`maxHotelCost` range over the hotels' per-night
prices (falling back to 50/300 only for an empty price list, per
`minHotelCost`/`maxHotelCost`) and `durationD` defaults the duration to 3
when the key is absent. -/
theorem C5_accommodation (d : TripData) (b : ℚ)
    (hb : budgetVal d = some b)
    (hh : (hotelsL d).isEmpty = false) :
    (⟨"accommodation_cost", .real, some 0, none⟩ : VarDecl) ∈
      (formalized d).vars ∧
    (⟨"accommodation_cost_range",
      .and
        (.ge (.var "accommodation_cost")
          (.const (minHotelCost (hotelsL d) * durationD d)))
        (.le (.var "accommodation_cost")
          (.const (maxHotelCost (hotelsL d) * durationD d))),
      true⟩ : Constraint) ∈ (formalized d).constraints := by
  rw [formalized_spec]
  exact ⟨mem_allVars_of_budget d _ (accVar_mem d b hb hh),
    mem_allCons_of_budget d _ (accRange_mem d b hb hh)⟩

/-- Witness for C5 at the Zurich scenario. -/
theorem C5_accommodation_witness :
    (⟨"accommodation_cost", .real, some 0, none⟩ : VarDecl) ∈
      (formalized zurichData).vars ∧
    (⟨"accommodation_cost_range",
      .and
        (.ge (.var "accommodation_cost")
          (.const (minHotelCost (hotelsL zurichData) * durationD zurichData)))
        (.le (.var "accommodation_cost")
          (.const (maxHotelCost (hotelsL zurichData) * durationD zurichData))),
      true⟩ : Constraint) ∈ (formalized zurichData).constraints :=
  C5_accommodation zurichData 200 (by decide) (by decide)

/-- C6 (confirmed): on the typed input, formalization is total and the
orchestrator returns exactly one of the four result variants for every
input and every solver answer, always carrying the measured elapsed
milliseconds in `execution_time`. -/
theorem C6_one_variant (d : TripData) (o : SolverOracle) (t : Nat) :
    executionTimeOf (solve_travel_plan d o t) = t ∧
    statusOf (solve_travel_plan d o t) ∈
      ["satisfiable", "unsatisfiable", "timeout", "error"] := by
  cases ho : o.outcome <;>
    simp [solve_travel_plan, executionTimeOf, statusOf, ho]

/-- C7 (confirmed): the empty input formalizes to zero variables and zero
constraints, and every valid decisive solver session yields the
satisfiable variant with `constraints_count = 0` and an empty solution
mapping. -/
theorem C7_empty_trivially_sat (o : SolverOracle) (t : Nat)
    (ho : OracleValid (formalized emptyData) o)
    (hdec : o.outcome ≠ .unknown) :
    formalized emptyData = ⟨[], []⟩ ∧
    solve_travel_plan emptyData o t = .satisfiable [] t 0 := by
  have hf : formalized emptyData = ⟨[], []⟩ := by decide
  have hout : o.outcome = .sat := by
    cases hoc : o.outcome with
    | sat => rfl
    | unsat => exact absurd emptySat (ho.unsat_sound hoc)
    | unknown => exact absurd hoc hdec
  refine ⟨hf, ?_⟩
  simp [solve_travel_plan, hout, hf, extractSolution]

/-- Witness for C7 with a concrete `sat` session. -/
theorem C7_empty_trivially_sat_witness :
    formalized emptyData = ⟨[], []⟩ ∧
    solve_travel_plan emptyData emptyOracle 3 = .satisfiable [] 3 0 :=
  C7_empty_trivially_sat emptyOracle 3 emptyOracleValid (by decide)

/-- C8 (confirmed): formalization in two independent solve sessions —
each starting from the state `TravelPlanSolver.__init__` produces — is
deterministic: the declared variable names, the recorded constraint-name
sequence, and satisfiability of the asserted problem coincide. -/
theorem C8_idempotent (d : TripData) (s1 s2 : FormState)
    (h1 : s1 = initState) (h2 : s2 = initState) :
    varNames (formalizeProblem d s1) = varNames (formalizeProblem d s2) ∧
    consNames (formalizeProblem d s1) = consNames (formalizeProblem d s2) ∧
    (SatState (formalizeProblem d s1) ↔ SatState (formalizeProblem d s2)) := by
  subst h1; subst h2
  exact ⟨rfl, rfl, Iff.rfl⟩

/-- Witness for C8 at the Zurich input. -/
theorem C8_idempotent_witness :
    varNames (formalizeProblem zurichData initState) =
      varNames (formalizeProblem zurichData initState) ∧
    consNames (formalizeProblem zurichData initState) =
      consNames (formalizeProblem zurichData initState) ∧
    (SatState (formalizeProblem zurichData initState) ↔
      SatState (formalizeProblem zurichData initState)) :=
  C8_idempotent zurichData initState initState rfl rfl

/-- C9 (confirmed): every recorded constraint is hard (no call site of
`add_constraint` passes `is_hard=False`), so no assertion is tracked and
the `unsat_core` of every unsatisfiable result is the empty list. -/
theorem C9_all_hard_empty_core (d : TripData) (o : SolverOracle) (t : Nat)
    (ho : OracleValid (formalized d) o) :
    (∀ c ∈ (formalized d).constraints, c.is_hard = true) ∧
    trackedNames (formalized d) = [] ∧
    (statusOf (solve_travel_plan d o t) = "unsatisfiable" →
      unsatCoreOf (solve_travel_plan d o t) = some []) := by
  refine ⟨?_, trackedNames_empty d, ?_⟩
  · intro c hc
    rw [formalized_spec] at hc
    exact allConsL_hard d c hc
  · intro hst
    have hcore := core_empty d o ho
    cases hoc : o.outcome with
    | sat => simp [solve_travel_plan, statusOf, hoc] at hst
    | unsat => simp [solve_travel_plan, unsatCoreOf, hoc, hcore]
    | unknown => simp [solve_travel_plan, statusOf, hoc] at hst

/-- Witness for C9 with a concrete valid session. -/
theorem C9_all_hard_empty_core_witness :
    (∀ c ∈ (formalized emptyData).constraints, c.is_hard = true) ∧
    trackedNames (formalized emptyData) = [] ∧
    (statusOf (solve_travel_plan emptyData emptyOracle 0) =
        "unsatisfiable" →
      unsatCoreOf (solve_travel_plan emptyData emptyOracle 0) = some []) :=
  C9_all_hard_empty_core emptyData emptyOracle 0 emptyOracleValid

/-- C10, counterexample to the claim as stated: `duration: 0` is falsy
but is not treated exactly as an absent key — `data.get('duration', 3)`
only falls back when the key is missing, so
`{budget:1000, duration:0, hotels:[{price_per_night:100}]}` records
`accommodation_cost_range` with bounds `100*0 = 0`, while the same input
without `duration` records bounds `100*3 = 300`; the two formalizations
differ. -/
theorem C10_counterexample :
    dur0Data.duration = some 0 ∧
    noDurData = { dur0Data with duration := none } ∧
    (formalized dur0Data).constraints ≠ (formalized noDurData).constraints := by
  refine ⟨rfl, by decide, ?_⟩
  have e1 : (formalized dur0Data).constraints =
      [accRangeCon dur0Data, totalCalcCon dur0Data, budgetLimitCon 1000,
       ⟨"hotel_availability", .isTrue "hotel_selected", true⟩] := by
    rw [formalized_spec]
    unfold allConsL dateConsL budgetConsL prefConsL hotelConsL schedConsL
    norm_num [dur0Data, budgetVal, hotelsL, attractionsL, prefsL,
      truthyStr, durTruthy, costComponents]
  have e2 : (formalized noDurData).constraints =
      [accRangeCon noDurData, totalCalcCon noDurData, budgetLimitCon 1000,
       ⟨"hotel_availability", .isTrue "hotel_selected", true⟩] := by
    rw [formalized_spec]
    unfold allConsL dateConsL budgetConsL prefConsL hotelConsL schedConsL
    norm_num [noDurData, budgetVal, hotelsL, attractionsL, prefsL,
      truthyStr, durTruthy, costComponents]
  have h0 : minHotelCost (hotelsL dur0Data) * durationD dur0Data = 0 := by
    norm_num [minHotelCost, hotelPrices, hotelsL, dur0Data, durationD]
  have h3 : minHotelCost (hotelsL noDurData) * durationD noDurData = 300 := by
    norm_num [minHotelCost, hotelPrices, hotelsL, noDurData, durationD]
  intro h
  rw [e1, e2] at h
  have hacc : accRangeCon dur0Data = accRangeCon noDurData := by
    injection h
  unfold accRangeCon at hacc
  rw [h0, h3] at hacc
  simp at hacc

/-- C10 (amended): truthiness gating does hold for the budget (and the
date/list fields): a present-but-zero budget behaves exactly like an
absent one — the whole formalization coincides and in particular no
`budget_limit` constraint is recorded, so such an input is never
unsatisfiable on budget grounds.  (Falsy `duration` is the exception
established by the counterexample.) -/
theorem C10_zero_budget (d : TripData) (h : d.budget = some 0) :
    formalized d = formalized { d with budget := none } ∧
    "budget_limit" ∉ consNames (formalized d) := by
  have hbv : budgetVal d = none := by simp [budgetVal, h]
  constructor
  · rw [formalized_spec, formalized_spec]
    have hpc : prefConOf d = prefConOf { d with budget := none } := by
      funext ip
      unfold prefConOf
      rw [hbv]
      rfl
    have hv : allVarsL d = allVarsL { d with budget := none } := by
      unfold allVarsL dateVarsL budgetVarsL prefVarsL hotelVarsL schedVarsL
      rw [hbv]
      rfl
    have hc : allConsL d = allConsL { d with budget := none } := by
      unfold allConsL dateConsL budgetConsL prefConsL hotelConsL schedConsL
      rw [hbv, hpc]
      rfl
    rw [hv, hc]
  · intro hmem
    unfold consNames at hmem
    rw [formalized_spec] at hmem
    rw [List.mem_map] at hmem
    obtain ⟨c, hc, hn⟩ := hmem
    have hbc := budget_limit_only_budget d c hc hn
    unfold budgetConsL at hbc
    rw [hbv] at hbc
    exact absurd hbc (List.not_mem_nil c)

/-- Witness for C10's amended theorem at a concrete zero-budget input. -/
theorem C10_zero_budget_witness :
    formalized zeroBudgetData =
      formalized { zeroBudgetData with budget := none } ∧
    "budget_limit" ∉ consNames (formalized zeroBudgetData) :=
  C10_zero_budget zeroBudgetData rfl
